import Mathlib

/-!
Shallow embedding of the datagram-formatting core of the `zoomies` DogStatsD
client (files `src/metrics.rs`, `src/metric.rs`, `src/events.rs`), together
with theorems settling the specification claims about it.

Modelling conventions:
- Rust `String`/`&str` values are Lean `String`s; Rust's `len()` is the UTF-8
  byte length, embedded as `byteLen` (sum of `Char.utf8Size` over the chars),
  never the character count.
- The byte buffer `Vec<u8>` that `format_metric` assembles holds UTF-8 text
  obtained by concatenating UTF-8 fragments, so it is embedded as a `String`
  as well; byte equality of buffers coincides with `String` equality.
- `io::Result` is embedded as `Except String`; writing into a growable byte
  buffer never fails in Rust (`io::Write for Vec<u8>` is infallible), which
  the embedding reflects by always returning `Except.ok`, while keeping the
  fallible type so that "the error branch is unreachable" is a theorem, not
  a typing accident.
- `std::time::SystemTime` is embedded as an `Int` of whole seconds relative
  to the Unix epoch (`duration_since(UNIX_EPOCH)` succeeds exactly on the
  non-negative values, and `as_secs` of the resulting duration is that
  value); the wall clock read by the pre-epoch fallback branch is passed
  explicitly as a `now : Nat` parameter (seconds since epoch, the clock
  itself assumed not to precede the epoch).
- The generic `T: Integer + Display` parameter of the counters is
  instantiated at `Int`; Rust's `Display`-rendering of an integer and Lean's
  `toString` on `Int` are both the canonical decimal text (minus sign for
  negatives, no leading zeros).
-/

namespace Zoomies

/-- UTF-8 byte length of a string: Rust's `str::len`. -/
def byteLen (s : String) : Nat :=
  s.data.foldl (fun n c => n + c.utf8Size) 0

/-! ## `src/metrics.rs` — current revision of the metric encoder -/

/-- `write_count_metric_arb` from `src/metrics.rs`: pushes the name, `":"`,
the `Display` text of the amount, then `"|c"`. -/
def write_count_metric_arb (name : String) (amt : Int) : String :=
  name ++ ":" ++ toString amt ++ "|c"

/-- The `Count` metric enum of `src/metrics.rs` (type parameter at `Int`). -/
inductive Count where
  | Inc (name : String)
  | Dec (name : String)
  | Arb (name : String) (amt : Int)

/-- `impl Metric for Count` in `src/metrics.rs`. -/
def Count.write : Count → String
  | .Inc name => write_count_metric_arb name 1
  | .Dec name => write_count_metric_arb name (-1)
  | .Arb name amt => write_count_metric_arb name amt

/-- The `Gauge` struct of `src/metrics.rs`. -/
structure Gauge where
  metric_name : String
  value : String

/-- `impl Metric for Gauge`: `name ++ ":" ++ value ++ "|g"`. -/
def Gauge.write (g : Gauge) : String :=
  g.metric_name ++ ":" ++ g.value ++ "|g"

/-- The `Histogram` struct of `src/metrics.rs`. -/
structure Histogram where
  metric_name : String
  value : String

/-- `impl Metric for Histogram`: `name ++ ":" ++ value ++ "|h"`. -/
def Histogram.write (h : Histogram) : String :=
  h.metric_name ++ ":" ++ h.value ++ "|h"

/-- The `Distribution` struct of `src/metrics.rs`. -/
structure Distribution where
  metric_name : String
  value : String

/-- `impl Metric for Distribution`: `name ++ ":" ++ value ++ "|d"`. -/
def Distribution.write (d : Distribution) : String :=
  d.metric_name ++ ":" ++ d.value ++ "|d"

/-- The `Set` struct of `src/metrics.rs`. -/
structure Set where
  metric_name : String
  value : String

/-- `impl Metric for Set`: `name ++ ":" ++ value ++ "|s"`. -/
def Set.write (s : Set) : String :=
  s.metric_name ++ ":" ++ s.value ++ "|s"

/-- The blanket `impl<T: AsRef<str>> Tag for T` (identical in
`src/metrics.rs` and `src/metric.rs`): a tag writes its own bytes verbatim
into the buffer; writing into a `Vec<u8>` never fails. -/
def Tag.write (t : String) (w : String) : Except String String :=
  Except.ok (w ++ t)

/-- The tag loop of `format_metric` in `src/metrics.rs`: repeatedly take the
next tag and write it into the buffer, propagating any write error. -/
def writeTagsLoop : List String → String → Except String String
  | [], msg => Except.ok msg
  | t :: rest, msg =>
    match Tag.write t msg with
    | Except.ok msg2 => writeTagsLoop rest msg2
    | Except.error e => Except.error e

/-- `format_metric` from `src/metrics.rs`, taking the metric's already
written line `m` (the output of `Metric::write`, the only thing the generic
`M: Metric` parameter contributes): start with the namespace plus `"."` when
the namespace is non-empty, append the metric line, then run the tag loop. -/
def format_metric (m : String) (ns : String) (tags : List String) :
    Except String String :=
  let base := if ns = "" then "" else ns ++ "."
  writeTagsLoop tags (base ++ m)

/-! ## `src/metric.rs` — earlier revision of the metric encoder -/

namespace metric

/-- `write_count_metric_inc` from `src/metric.rs`: pushes `":1|c"` as one
literal. -/
def write_count_metric_inc (name : String) : String :=
  name ++ ":1|c"

/-- `write_count_metric_dec` from `src/metric.rs`: pushes `":-1|c"` as one
literal. -/
def write_count_metric_dec (name : String) : String :=
  name ++ ":-1|c"

/-- `write_count_metric_arb` from `src/metric.rs`. -/
def write_count_metric_arb (name : String) (amt : Int) : String :=
  name ++ ":" ++ toString amt ++ "|c"

/-- The `CountMetric` enum of `src/metric.rs`; every variant carries an
amount (ignored by `Inc`/`Dec`). -/
inductive CountMetric where
  | Inc (name : String) (amt : Int)
  | Dec (name : String) (amt : Int)
  | Arb (name : String) (amt : Int)

/-- `impl Metric for CountMetric` in `src/metric.rs`. -/
def CountMetric.write : CountMetric → String
  | .Inc name _ => write_count_metric_inc name
  | .Dec name _ => write_count_metric_dec name
  | .Arb name amt => write_count_metric_arb name amt

/-- `format_metric` from `src/metric.rs`: same namespace handling as the
`src/metrics.rs` revision, but the tag loop is a `for` loop, embedded as a
monadic fold. -/
def format_metric (m : String) (ns : String) (tags : List String) :
    Except String String :=
  let base := if ns = "" then "" else ns ++ "."
  tags.foldlM (fun w t => Tag.write t w) (base ++ m)

end metric

/-! ## `src/events.rs` — the event encoder -/

/-- The `Priority` enum of `src/events.rs`. -/
inductive Priority where
  | Low
  | Normal
deriving DecidableEq

/-- The `AlertType` enum of `src/events.rs`. -/
inductive AlertType where
  | Error
  | Info
  | Success
  | Warning
deriving DecidableEq

/-- The `Hostname` newtype of `src/events.rs`. -/
structure Hostname where
  val : String
deriving DecidableEq

/-- The `AggKey` newtype of `src/events.rs`. -/
structure AggKey where
  val : String
deriving DecidableEq

/-- The `SourceTypeName` newtype of `src/events.rs`. -/
structure SourceTypeName where
  val : String
deriving DecidableEq

/-- `std::time::SystemTime`, embedded as whole seconds relative to the
Unix epoch (negative = before the epoch). -/
abbrev SystemTime := Int

/-- `impl DatagramFormat for &SourceTypeName`: `"|s:" ++ value`. -/
def SourceTypeName.format (s : SourceTypeName) : String :=
  "|s:" ++ s.val

/-- `impl DatagramFormat for &Priority`: `"|p:low"` or `"|p:normal"`. -/
def Priority.format (p : Priority) : String :=
  let s := match p with
    | .Low => "low"
    | .Normal => "normal"
  "|p:" ++ s

/-- `impl DatagramFormat for &AlertType`: `"|t:"` plus the lowercase
variant name. -/
def AlertType.format (a : AlertType) : String :=
  let suffix := match a with
    | .Error => "error"
    | .Info => "info"
    | .Success => "success"
    | .Warning => "warning"
  "|t:" ++ suffix

/-- `impl DatagramFormat for &Hostname`: `"|h:" ++ value`. -/
def Hostname.format (h : Hostname) : String :=
  "|h:" ++ h.val

/-- `impl DatagramFormat for &AggKey`: `"|k:" ++ value` (note `k`, not the
`a` of the protocol header comment). -/
def AggKey.format (k : AggKey) : String :=
  "|k:" ++ k.val

/-- `impl DatagramFormat for &SystemTime`: `duration_since(UNIX_EPOCH)`
succeeds (with the timestamp's own seconds) exactly when the timestamp is
not before the epoch; otherwise the code falls back to
`UNIX_EPOCH.elapsed()`, i.e. the wall clock `now` at the moment of the
call. -/
def SystemTime.format (ts : SystemTime) (now : Nat) : String :=
  let suffix := if 0 ≤ ts then ts.toNat else now
  "|d:" ++ toString suffix

/-- Modelled from the spec: the `DatagramFormat` impl for `Option<T>` used
by `convert_len_from_opt` is referenced (`crate::DatagramFormat`) but not
present under `src/`; per §4.4 of the spec an "optional value renders its
inner value or empty". -/
def optFormat {α : Type} (f : α → String) : Option α → String
  | none => ""
  | some x => f x

/-- The `Event` struct of `src/events.rs`; `derive(Default)` gives empty
strings and `None` everywhere. -/
structure Event where
  title : String := ""
  text : String := ""
  timestamp : Option SystemTime := none
  hostname : Option Hostname := none
  agg_key : Option AggKey := none
  priority : Option Priority := none
  source_type_name : Option SourceTypeName := none
  alert_type : Option AlertType := none
deriving DecidableEq

/-- `Event::new`: the default event. -/
def Event.new : Event := {}

/-- `Event::title` setter. -/
def Event.setTitle (e : Event) (t : String) : Event :=
  { e with title := t }

/-- `Event::text` setter. -/
def Event.setText (e : Event) (t : String) : Event :=
  { e with text := t }

/-- `Event::timestamp` setter. -/
def Event.setTimestamp (e : Event) (ts : SystemTime) : Event :=
  { e with timestamp := some ts }

/-- `Event::hostname` setter. -/
def Event.setHostname (e : Event) (h : String) : Event :=
  { e with hostname := some ⟨h⟩ }

/-- `Event::agg_key` setter. -/
def Event.setAggKey (e : Event) (k : String) : Event :=
  { e with agg_key := some ⟨k⟩ }

/-- `Event::priority` setter. -/
def Event.setPriority (e : Event) (p : Priority) : Event :=
  { e with priority := some p }

/-- `Event::source_type_name` setter. -/
def Event.setSourceTypeName (e : Event) (s : String) : Event :=
  { e with source_type_name := some ⟨s⟩ }

/-- `Event::alert_type` setter. -/
def Event.setAlertType (e : Event) (a : AlertType) : Event :=
  { e with alert_type := some a }

/-- `Event::build`: clones every field into a fresh `Event`, always
wrapped in `Ok` (the `Result<Event, &'static str>` error branch is never
taken). -/
def Event.build (e : Event) : Except String Event :=
  Except.ok
    { title := e.title
      text := e.text
      timestamp := e.timestamp
      hostname := e.hostname
      agg_key := e.agg_key
      priority := e.priority
      source_type_name := e.source_type_name
      alert_type := e.alert_type }

/-- `convert_len` from `src/events.rs`: a copy of the string together with
its byte length. -/
def convert_len (name : String) : String × Nat :=
  (name, byteLen name)

/-- `convert_len_from_opt` from `src/events.rs`: `convert_len` of the
datagram rendering of an optional value. -/
def convert_len_from_opt {α : Type} (f : α → String) (opt : Option α) :
    String × Nat :=
  convert_len (optFormat f opt)

/-- `impl DatagramFormat for Event` in `src/events.rs`. The wall clock
`now` (seconds since epoch) is the explicit stand-in for the clock read by
the pre-epoch timestamp fallback. Push order of the optional suffixes, as
in the source: timestamp, hostname, aggregation key, priority, source type
name, alert type. -/
def Event.format (e : Event) (now : Nat) : String :=
  let (title, title_len) := convert_len e.title
  let (text, text_len) := convert_len e.text
  let (ts, _) := convert_len_from_opt (fun t => SystemTime.format t now) e.timestamp
  let (hn, _) := convert_len_from_opt Hostname.format e.hostname
  let (ak, _) := convert_len_from_opt AggKey.format e.agg_key
  let (ap, _) := convert_len_from_opt Priority.format e.priority
  let (att, _) := convert_len_from_opt AlertType.format e.alert_type
  let (st, _) := convert_len_from_opt SourceTypeName.format e.source_type_name
  "_e\x7b" ++ toString title_len ++ "," ++ toString text_len ++ "\x7d:" ++
    title ++ "|" ++ text ++ ts ++ hn ++ ak ++ ap ++ st ++ att

/-- Plain concatenation of a list of strings, used to state what the tag
loop appends. -/
def concatAll : List String → String
  | [] => ""
  | t :: ts => t ++ concatAll ts

/-! ## Helper lemmas -/

theorem writeTagsLoop_ok (tags : List String) (w : String) :
    writeTagsLoop tags w = Except.ok (w ++ concatAll tags) := by
  induction tags generalizing w with
  | nil => simp [writeTagsLoop, concatAll, String.append_empty]
  | cons t ts ih =>
    simp [writeTagsLoop, Tag.write, concatAll, ih, String.append_assoc]

theorem foldlM_tags_eq_loop (tags : List String) (w : String) :
    List.foldlM (fun w t => Tag.write t w) w tags = writeTagsLoop tags w := by
  induction tags generalizing w with
  | nil => rfl
  | cons t ts ih =>
    simp only [List.foldlM, Tag.write, writeTagsLoop, bind, Except.bind]
    exact ih (w ++ t)

theorem toString_int_neg (a : Int) (h : a < 0) :
    toString a = "-" ++ toString a.natAbs := by
  match a with
  | Int.ofNat n => simp at h; omega
  | Int.negSucc n => rfl

/-- Claim C1: encodings of the five metric kinds in `src/metrics.rs`:
`Count::Inc(n)` writes `n ++ ":1|c"`, `Count::Dec(n)` writes
`n ++ ":-1|c"`, `Count::Arb(n, a)` writes `n`, `":"`, the canonical
decimal text of `a` (leading minus for negatives), `"|c"`; and the
value-carrying kinds emit the value verbatim between `":"` and their
one-character type suffix `|g`, `|s`, `|h`, `|d`. -/
theorem count_and_value_metric_encodings :
    (∀ name : String, Count.write (Count.Inc name) = name ++ ":1|c")
    ∧ (∀ name : String, Count.write (Count.Dec name) = name ++ ":-1|c")
    ∧ (∀ (name : String) (a : Int),
        Count.write (Count.Arb name a) = name ++ ":" ++ toString a ++ "|c")
    ∧ (∀ a : Int, a < 0 → toString a = "-" ++ toString a.natAbs)
    ∧ (∀ n v, Gauge.write ⟨n, v⟩ = n ++ ":" ++ v ++ "|g")
    ∧ (∀ n v, Set.write ⟨n, v⟩ = n ++ ":" ++ v ++ "|s")
    ∧ (∀ n v, Histogram.write ⟨n, v⟩ = n ++ ":" ++ v ++ "|h")
    ∧ (∀ n v, Distribution.write ⟨n, v⟩ = n ++ ":" ++ v ++ "|d") := by
  refine ⟨fun name => ?_, fun name => ?_, fun name a => rfl,
    toString_int_neg, fun n v => rfl, fun n v => rfl, fun n v => rfl,
    fun n v => rfl⟩
  · show name ++ ":" ++ toString (1 : Int) ++ "|c" = name ++ ":1|c"
    simp only [String.append_assoc]
    exact congrArg (fun s => name ++ s) (by decide)
  · show name ++ ":" ++ toString (-1 : Int) ++ "|c" = name ++ ":-1|c"
    simp only [String.append_assoc]
    exact congrArg (fun s => name ++ s) (by decide)

/-- Claim C1 witness: the theorem applied at the concrete inputs of the
repository's own tests, with the negative-decimal hypothesis discharged
at `-5`. -/
theorem count_and_value_metric_encodings_witness :
    Count.write (Count.Inc "custom_metric") = "custom_metric:1|c"
    ∧ toString (-5 : Int) = "-" ++ toString (Int.natAbs (-5)) := by
  refine ⟨?_, count_and_value_metric_encodings.2.2.2.1 (-5) (by decide)⟩
  rw [count_and_value_metric_encodings.1 "custom_metric"]
  decide

/-- Claim C2: an `Event` with no optional field set formats to exactly
`"_e\x7b" ++ L1 ++ "," ++ L2 ++ "\x7d:" ++ title ++ "|" ++ text`, where `L1`
and `L2` are the UTF-8 byte lengths of the title and the text (byte count,
not character count). -/
theorem event_format_no_optional_fields (e : Event) (now : Nat)
    (h1 : e.timestamp = none) (h2 : e.hostname = none) (h3 : e.agg_key = none)
    (h4 : e.priority = none) (h5 : e.source_type_name = none)
    (h6 : e.alert_type = none) :
    e.format now = "_e\x7b" ++ toString (byteLen e.title) ++ "," ++
      toString (byteLen e.text) ++ "\x7d:" ++ e.title ++ "|" ++ e.text := by
  simp [Event.format, convert_len, convert_len_from_opt, optFormat,
    h1, h2, h3, h4, h5, h6, String.append_empty]

/-- Claim C2 witness: the theorem at a concrete event whose text holds a
two-byte character, so the length prefix counts bytes (6 for the five
characters of the title), matching the repository's `test_simple_event`
shape. -/
theorem event_format_no_optional_fields_witness :
    Event.format { title := "héllo", text := "Big Chungus" } 0 =
      "_e\x7b6,11\x7d:héllo|Big Chungus" := by
  rw [event_format_no_optional_fields
    { title := "héllo", text := "Big Chungus" } 0 rfl rfl rfl rfl rfl rfl]
  decide

/-- Claim C3: `Event::format` appends after the `"_e\x7b..\x7d:title|text"`
header the renderings of exactly the optional fields that are set, in the
fixed push order timestamp, hostname, aggregation key, priority, source
type name, alert type; each rendering carries its wire prefix (`|d:`,
`|h:`, `|k:` — not `|a:` — `|p:`, `|s:`, `|t:`), and an absent field
contributes the empty string. The `Event` struct of `src/events.rs` has no
tags field, so no tag suffix can ever follow. -/
theorem event_format_optional_field_order :
    (∀ (e : Event) (now : Nat),
      e.format now = "_e\x7b" ++ toString (byteLen e.title) ++ "," ++
        toString (byteLen e.text) ++ "\x7d:" ++ e.title ++ "|" ++ e.text ++
        optFormat (fun t => SystemTime.format t now) e.timestamp ++
        optFormat Hostname.format e.hostname ++
        optFormat AggKey.format e.agg_key ++
        optFormat Priority.format e.priority ++
        optFormat SourceTypeName.format e.source_type_name ++
        optFormat AlertType.format e.alert_type)
    ∧ (∀ h, Hostname.format h = "|h:" ++ h.val)
    ∧ (∀ k, AggKey.format k = "|k:" ++ k.val)
    ∧ Priority.format Priority.Low = "|p:low"
    ∧ Priority.format Priority.Normal = "|p:normal"
    ∧ (∀ s, SourceTypeName.format s = "|s:" ++ s.val)
    ∧ AlertType.format AlertType.Error = "|t:error"
    ∧ AlertType.format AlertType.Info = "|t:info"
    ∧ AlertType.format AlertType.Success = "|t:success"
    ∧ AlertType.format AlertType.Warning = "|t:warning"
    ∧ (∀ now : Nat, optFormat (fun t => SystemTime.format t now) none = "")
    ∧ optFormat Hostname.format none = ""
    ∧ optFormat AggKey.format none = ""
    ∧ optFormat Priority.format none = ""
    ∧ optFormat SourceTypeName.format none = ""
    ∧ optFormat AlertType.format none = "" := by
  refine ⟨fun e now => rfl, fun h => rfl, fun k => rfl, rfl, rfl,
    fun s => rfl, rfl, rfl, rfl, rfl, fun now => rfl, rfl, rfl, rfl, rfl, rfl⟩

/-- Claim C4 counterexample: with the single pre-rendered tag `"a:1"`, the
formatter produces `"m:1|ga:1"` — the tag bytes are appended verbatim with
no `"|#"` prefix and no comma machinery — and not the `"m:1|g|#a:1"` the
claim predicts. -/
theorem format_metric_tag_prefix_counterexample :
    format_metric (Gauge.write ⟨"m", "1"⟩) "" ["a:1"] = Except.ok "m:1|ga:1"
    ∧ ("m:1|ga:1" : String) ≠ "m:1|g|#a:1" :=
  ⟨rfl, by decide⟩

/-- Claim C4 as amended: an empty tag sequence contributes empty text, and
a non-empty sequence contributes exactly the concatenation of the supplied
tag strings, each appended verbatim — the formatter inserts no `"|#"`
prefix and no `","` separators (callers must pre-render those into the tag
strings themselves). -/
theorem format_metric_tags_appended_verbatim (m : String)
    (tags : List String) :
    format_metric m "" tags = Except.ok (m ++ concatAll tags) :=
  writeTagsLoop_ok tags m

/-- Claim C5: with a non-empty namespace the output is the namespace, one
`"."`, then the encoded metric line (and the tag bytes); with an empty
namespace it is the encoded line alone (and the tag bytes), no leading dot,
all other bytes unchanged. -/
theorem format_metric_namespace_split (m ns : String)
    (tags : List String) :
    (ns ≠ "" →
      format_metric m ns tags =
        Except.ok (ns ++ "." ++ m ++ concatAll tags))
    ∧ (ns = "" →
      format_metric m ns tags = Except.ok (m ++ concatAll tags)) := by
  constructor
  · intro h
    simp only [format_metric, if_neg h]
    exact writeTagsLoop_ok tags (ns ++ "." ++ m)
  · intro h
    subst h
    exact writeTagsLoop_ok tags m

/-- Claim C5 witness: the theorem at the spec's own example — metric line
`"zoomies:1|c"` with namespace `"app"` and with the empty namespace. -/
theorem format_metric_namespace_split_witness :
    format_metric "zoomies:1|c" "app" [] = Except.ok "app.zoomies:1|c"
    ∧ format_metric "zoomies:1|c" "" [] = Except.ok "zoomies:1|c" := by
  constructor
  · rw [(format_metric_namespace_split "zoomies:1|c" "app" []).1 (by decide)]
    rfl
  · rw [(format_metric_namespace_split "zoomies:1|c" "" []).2 rfl]
    rfl

/-- Claim C6 counterexample: an `Event` whose timestamp precedes the Unix
epoch renders the wall clock read at the moment of the call, so two
invocations one second apart yield different bytes. -/
theorem event_format_pre_epoch_clock_counterexample :
    Event.format { title := "t", text := "x", timestamp := some (-5) } 0 ≠
      Event.format { title := "t", text := "x", timestamp := some (-5) } 1 := by
  decide

/-- Claim C6 as amended: formatting is a pure function of the event and the
wall clock, and the clock is only consulted by the pre-epoch timestamp
fallback; hence for every `Event` whose timestamp is unset or not before
the epoch, two invocations yield byte-identical output whatever the two
clock readings are (and metric formatting, which never reads a clock, is
trivially deterministic). -/
theorem event_format_clock_independent (e : Event) (n1 n2 : Nat)
    (h : ∀ t, e.timestamp = some t → 0 ≤ t) :
    e.format n1 = e.format n2 := by
  cases hts : e.timestamp with
  | none =>
    simp [Event.format, convert_len, convert_len_from_opt, optFormat, hts]
  | some t =>
    have h0 := h t hts
    simp [Event.format, convert_len, convert_len_from_opt, optFormat, hts,
      SystemTime.format, h0]

/-- Claim C6 witness: the amended theorem at a concrete event with an
at-epoch-or-later timestamp and two different clock readings. -/
theorem event_format_clock_independent_witness :
    Event.format { title := "t", text := "x", timestamp := some 3 } 0 =
      Event.format { title := "t", text := "x", timestamp := some 3 } 5 := by
  apply event_format_clock_independent
    { title := "t", text := "x", timestamp := some 3 } 0 5
  intro t ht
  have h2 : some (3 : SystemTime) = some t := ht
  injection h2 with h3
  rw [← h3]
  decide

/-- Claim C7: an unset timestamp renders to the empty string (the event
emits no `|d:` suffix — the default is to omit, not "now"); a set
timestamp at or after the epoch renders `"|d:"` plus its whole seconds
since the epoch; a set timestamp before the epoch falls back to the
current clock reading `"|d:" ++ now` instead of failing — the rendering is
total. -/
theorem event_timestamp_rendering (e : Event) (now : Nat) :
    optFormat (fun t => SystemTime.format t now) none = ""
    ∧ (∀ t : SystemTime, 0 ≤ t →
        SystemTime.format t now = "|d:" ++ toString t.toNat)
    ∧ (∀ t : SystemTime, t < 0 →
        SystemTime.format t now = "|d:" ++ toString now)
    ∧ (e.timestamp = none →
        e.format now = "_e\x7b" ++ toString (byteLen e.title) ++ "," ++
          toString (byteLen e.text) ++ "\x7d:" ++ e.title ++ "|" ++ e.text ++
          optFormat Hostname.format e.hostname ++
          optFormat AggKey.format e.agg_key ++
          optFormat Priority.format e.priority ++
          optFormat SourceTypeName.format e.source_type_name ++
          optFormat AlertType.format e.alert_type) := by
  refine ⟨rfl, fun t h => ?_, fun t h => ?_, fun hts => ?_⟩
  · simp [SystemTime.format, h]
  · have hn : ¬(0 : Int) ≤ t := not_le.mpr h
    simp [SystemTime.format, hn]
  · simp [Event.format, convert_len, convert_len_from_opt, optFormat, hts,
      String.append_empty]

/-- Claim C7 witness: the theorem at concrete inputs — a post-epoch
timestamp renders its own seconds, a pre-epoch one renders the clock
reading `9`, and an event with no timestamp emits no `|d:` section. -/
theorem event_timestamp_rendering_witness :
    SystemTime.format 4 9 = "|d:4"
    ∧ SystemTime.format (-3) 9 = "|d:9"
    ∧ Event.format { title := "t", text := "x" } 9 = "_e\x7b1,1\x7d:t|x" := by
  refine ⟨?_, ?_, ?_⟩
  · rw [(event_timestamp_rendering {} 9).2.1 4 (by decide)]
    decide
  · rw [(event_timestamp_rendering {} 9).2.2.1 (-3) (by decide)]
    decide
  · rw [(event_timestamp_rendering { title := "t", text := "x" } 9).2.2.2 rfl]
    decide

/-- Claim C8: both revisions of `format_metric` always return `Ok` — the
`io::Result` error branch is unreachable, because the only fallible step,
writing tag bytes into the byte buffer, is infallible; the metric `write`
functions and `Event::format` are total by construction in this embedding
(every equation above evaluates them on arbitrary input). -/
theorem format_metric_never_fails (m ns : String) (tags : List String) :
    (∃ v, format_metric m ns tags = Except.ok v)
    ∧ (∃ v, metric.format_metric m ns tags = Except.ok v) := by
  constructor
  · exact ⟨_, writeTagsLoop_ok tags ((if ns = "" then "" else ns ++ ".") ++ m)⟩
  · refine ⟨(if ns = "" then "" else ns ++ ".") ++ m ++ concatAll tags, ?_⟩
    show List.foldlM (fun w t => Tag.write t w)
      ((if ns = "" then "" else ns ++ ".") ++ m) tags = _
    rw [foldlM_tags_eq_loop]
    exact writeTagsLoop_ok tags _

/-- Claim C9: `Event::build` always returns `Ok`, whatever state the
setter calls left the builder in, and the built event carries exactly the
builder's field values. -/
theorem event_build_always_ok (e : Event) : Event.build e = Except.ok e :=
  rfl

/-- Claim C10: the two revisions agree — `CountMetric::{Inc,Dec,Arb}` of
`src/metric.rs` write the same strings as `Count::{Inc,Dec,Arb}` of
`src/metrics.rs` for equal names and amounts, and the two `format_metric`
functions produce identical output for the same metric line, namespace and
tag sequence. -/
theorem metric_revisions_equivalent :
    (∀ (name : String) (a : Int),
      metric.CountMetric.write (metric.CountMetric.Inc name a) =
        Count.write (Count.Inc name))
    ∧ (∀ (name : String) (a : Int),
      metric.CountMetric.write (metric.CountMetric.Dec name a) =
        Count.write (Count.Dec name))
    ∧ (∀ (name : String) (a : Int),
      metric.CountMetric.write (metric.CountMetric.Arb name a) =
        Count.write (Count.Arb name a))
    ∧ (∀ (m ns : String) (tags : List String),
      metric.format_metric m ns tags = format_metric m ns tags) := by
  refine ⟨fun name a => ?_, fun name a => ?_, fun name a => rfl,
    fun m ns tags => ?_⟩
  · show name ++ ":1|c" = name ++ ":" ++ toString (1 : Int) ++ "|c"
    simp only [String.append_assoc]
    exact congrArg (fun s => name ++ s) (by decide)
  · show name ++ ":-1|c" = name ++ ":" ++ toString (-1 : Int) ++ "|c"
    simp only [String.append_assoc]
    exact congrArg (fun s => name ++ s) (by decide)
  · exact foldlM_tags_eq_loop tags ((if ns = "" then "" else ns ++ ".") ++ m)

end Zoomies
